import Mathlib

/-!
A shallow embedding of the KFP SDK CLI front-end
(`sdk/python/kfp/cli/compile.py` and `sdk/python/kfp/cli/cli.py`)
together with theorems about its behaviour.

Python callables discovered during the user-module import are modelled as
`PyFunc` values (a numeric identity plus the `__name__` attribute).  The
process-global state touched by `dsl_compile` (`sys.path`, the
`pipeline_context.pipeline_decorator_handler` slot, and the logging output)
is modelled as an explicit `Sys` record that is threaded through the
functions.  External calls (`__import__` of the user file and `json.loads`
of the standard library) are supplied as parameters: the behaviour of the
user module is an `ImportOutcome` (the sequence of pipeline registrations it
performs, and whether it raises) and `json.loads` is a function returning
`Except`.  Exceptions are modelled with `Except`; a returned `CompileCall`
record means `compiler.Compiler().compile` was invoked with exactly those
arguments, while an `Except.error` means the exception propagated and the
compiler was never reached.
-/

/-- A Python exception, as far as this CLI distinguishes them. -/
inductive PyExc where
  | valueError (msg : String)
  | jsonDecodeError (msg : String)
  | other (msg : String)
deriving DecidableEq, Repr

/-- Python `str(e)` on an exception: its message. -/
def PyExc.str : PyExc → String
  | .valueError m => m
  | .jsonDecodeError m => m
  | .other m => m

/-- A Python callable decorated with `@dsl.pipeline`: an identity plus its
`__name__` attribute (distinct functions may share a name). -/
structure PyFunc where
  fid : Nat
  name : String
deriving DecidableEq, Repr

/-- The JSON-decoded `--pipeline-parameters` dict, `{name: value}`. -/
abbrev Params := List (String × String)

/-- The value held by the process-global
`pipeline_context.pipeline_decorator_handler` slot: either whatever handler
was installed outside `dsl_compile`, or the collector closure installed by
`PipelineCollectorContext.__enter__`. -/
inductive Handler where
  | original (id : Nat)
  | collector
deriving DecidableEq, Repr

/-- The process-global state `dsl_compile` touches: `sys.path`, the
pipeline-decorator-handler slot and the logging output. -/
structure Sys where
  path : List String
  handler : Handler
  log : List String
deriving DecidableEq, Repr

/-- Behaviour of the `__import__` of the user-supplied py file: the pipeline
functions it registers through the installed decorator handler, in order,
and whether the import raises after registering them. -/
inductive ImportOutcome where
  | ok (registered : List PyFunc)
  | raises (registered : List PyFunc) (e : PyExc)
deriving DecidableEq, Repr

/-- The arguments of the one call made to `compiler.Compiler().compile`. -/
structure CompileCall where
  pipeline_func : PyFunc
  pipeline_parameters : Params
  package_path : String
  type_check : Bool
deriving DecidableEq, Repr

/-- Python truthiness of an `Optional[str]`: `None` and the empty string are
falsy, every other string is truthy. -/
def truthyStr : Option String → Bool
  | none => false
  | some s => !s.isEmpty

/-- A single quote character, as used by Python `repr` of a string. -/
def pySQuote : String := String.singleton (Char.ofNat 39)

/-- Python `repr` of a string made of ordinary characters. -/
def pyRepr (s : String) : String := pySQuote ++ s ++ pySQuote

/-- Python `str` of a list of strings, e.g. `[COMMA-separated reprs]`. -/
def pyListRepr (xs : List String) : String :=
  "[" ++ String.intercalate (", ") (xs.map pyRepr) ++ "]"

/-- Strip trailing slash characters, as Python `str.rstrip` with `/`. -/
def rstrip_slash (s : String) : String :=
  String.mk ((s.toList.reverse.dropWhile (fun c => c == '/')).reverse)

/-- Model of `os.path.dirname` for POSIX paths: everything up to the last
slash, with trailing slashes stripped unless the head is all slashes. -/
def os_path_dirname (p : String) : String :=
  let parts := p.splitOn ("/")
  if parts.length ≤ 1 then ""
  else
    let head := String.intercalate ("/") parts.dropLast ++ "/"
    if head.toList.all (fun c => c == '/') then head else rstrip_slash head

/-- Model of `os.path.basename` for POSIX paths: everything after the last
slash. -/
def os_path_basename (p : String) : String :=
  (p.splitOn ("/")).getLastD ""

/-- Index of the last dot in a character list, if any. -/
def last_dot_index (cs : List Char) : Option Nat :=
  match cs.reverse.findIdx? (fun c => c == '.') with
  | none => none
  | some j => some (cs.length - 1 - j)

/-- Model of `os.path.splitext(p)[0]` for a basename (no slashes): drop the
extension at the last dot, unless every character before it is a dot. -/
def os_path_splitext_root (p : String) : String :=
  let cs := p.toList
  match last_dot_index cs with
  | none => p
  | some d =>
    if (cs.take d).any (fun c => c ≠ '.') then String.mk (cs.take d) else p

/-- The module name `dsl_compile` imports:
`os.path.splitext(os.path.basename(py))[0]`. -/
def module_name_of (py : String) : String :=
  os_path_splitext_root (os_path_basename py)

/-- The `add_pipeline` closure created by
`PipelineCollectorContext.__enter__`: appends the function to the collected
list and returns the function unchanged. -/
def add_pipeline (pipeline_funcs : List PyFunc) (func : PyFunc) :
    List PyFunc × PyFunc :=
  (pipeline_funcs ++ [func], func)

/-- The list collected by `add_pipeline` over a sequence of registrations,
starting from the empty list created by `__enter__`. -/
def runRegistrations (regs : List PyFunc) : List PyFunc :=
  regs.foldl (fun acc f => (add_pipeline acc f).1) []

/-- `_compile_pipeline_function` from `compile.py`: picks the pipeline
function to compile (raising `ValueError` when none was registered, when
several were registered and `--function` is falsy, or when the named
function is absent) and calls `compiler.Compiler().compile` with it. -/
def _compile_pipeline_function (pipeline_funcs : List PyFunc)
    (function_name : Option String) (pipeline_parameters : Params)
    (package_path : String) (type_check : Bool) : Except PyExc CompileCall :=
  match pipeline_funcs with
  | [] =>
    Except.error (PyExc.valueError
      ("A function with @dsl.pipeline decorator is required in the py file."))
  | f0 :: rest =>
    if rest.length > 0 && !(truthyStr function_name) then
      Except.error (PyExc.valueError
        ("There are multiple pipelines: " ++
          pyListRepr ((f0 :: rest).map PyFunc.name) ++
          ". Please specify --function."))
    else if truthyStr function_name then
      match (f0 :: rest).find? (fun x => x.name == function_name.getD ("")) with
      | some pf =>
        Except.ok { pipeline_func := pf,
                    pipeline_parameters := pipeline_parameters,
                    package_path := package_path, type_check := type_check }
      | none =>
        Except.error (PyExc.valueError
          ("The function \"" ++ function_name.getD ("") ++
            "\" does not exist. Did you forget @dsl.pipeline decoration?"))
    else
      Except.ok { pipeline_func := f0,
                  pipeline_parameters := pipeline_parameters,
                  package_path := package_path, type_check := type_check }

/-- The `click` default of the `--disable-type-check` flag (`default=False`;
the `True` in the Python signature is dead, since `click` always passes the
option). -/
def disable_type_check_default : Bool := false

/-- The `dsl_compile` command body.  `importFn` gives the behaviour of the
`__import__` of the user module (a parameter, since the user file is
external input); `json_loads` gives the behaviour of the standard library
`json.loads`, with `Except.error` standing for `json.JSONDecodeError`.
Returns the propagated exception or the record of the one
`compiler.Compiler().compile` call, together with the final global state. -/
def dsl_compile (py : String) (output : String)
    (function_name : Option String) (pipeline_parameters : Option String)
    (disable_type_check : Bool) (importFn : String → ImportOutcome)
    (json_loads : String → Except String Params) (s : Sys) :
    Except PyExc CompileCall × Sys :=
  let s1 : Sys := { s with path := os_path_dirname py :: s.path }
  let filename := os_path_basename py
  let old_handler := s1.handler
  let s2 : Sys := { s1 with handler := Handler.collector }
  match importFn (os_path_splitext_root filename) with
  | ImportOutcome.raises _ e =>
    (Except.error e, { s2 with handler := old_handler, path := s2.path.tail })
  | ImportOutcome.ok regs =>
    let pipeline_funcs := runRegistrations regs
    let s3 : Sys := { s2 with handler := old_handler }
    match pipeline_parameters with
    | none =>
      (_compile_pipeline_function pipeline_funcs function_name [] output
        (!disable_type_check),
       { s3 with path := s3.path.tail })
    | some pp =>
      match json_loads pp with
      | Except.error m =>
        (Except.error (PyExc.jsonDecodeError m),
         { s3 with
             log := s3.log ++
               ["Failed to parse --pipeline-parameters argument: " ++ pp],
             path := s3.path.tail })
      | Except.ok parsed =>
        (_compile_pipeline_function pipeline_funcs function_name parsed output
          (!disable_type_check),
         { s3 with path := s3.path.tail })

/-- What `main` observes of a run: the process exit code and the lines
echoed to stderr. -/
structure MainResult where
  exit_code : Nat
  stderr : List String
deriving DecidableEq, Repr

/-- `main` from `compile.py` (named `compile_main` here since Lean reserves `main`): runs `dsl_compile`; any exception is caught,
`str(e)` is echoed to stderr and the process exits with code 1. -/
def compile_main (py : String) (output : String) (function_name : Option String)
    (pipeline_parameters : Option String) (disable_type_check : Bool)
    (importFn : String → ImportOutcome)
    (json_loads : String → Except String Params) (s : Sys) :
    MainResult × Sys :=
  let r := dsl_compile py output function_name pipeline_parameters
    disable_type_check importFn json_loads s
  match r.1 with
  | Except.ok _ => ({ exit_code := 0, stderr := [] }, r.2)
  | Except.error e => ({ exit_code := 1, stderr := [PyExc.str e] }, r.2)

/-- The program name of the top-level CLI group (`cli.py`). -/
def PROGRAM_NAME : String := "kfp"

/-- `_create_completion` from `cli.py`: the shell-eval statement echoed by
`--show-completion`. -/
def _create_completion (shell : String) : String :=
  "eval \"$(_" ++ PROGRAM_NAME.toUpper ++ "_COMPLETE=" ++ shell ++
    "_source " ++ PROGRAM_NAME ++ ")\""

/-- The remote API client constructed by the `cli` group callback:
`Client(endpoint, iap_client_id, namespace, other_client_id,
other_client_secret)`.  Its internals are outside this excerpt; only the
constructor arguments are modelled. -/
structure Client where
  endpoint : Option String
  iap_client_id : Option String
  ns : String
  other_client_id : Option String
  other_client_secret : Option String
deriving DecidableEq, Repr

/-- What the `cli` group callback leaves behind for the subcommand: the
`ctx.obj` entries it may store, plus anything echoed. -/
structure CliResult where
  obj_client : Option Client
  obj_namespace : Option String
  obj_output : Option String
  echoed : List String
deriving DecidableEq, Repr

/-- The set `client_commands` computed in `cli`: each client command name
together with its plural alias.  The command names themselves live in the
`kfp.cli.run`/`recurring_run`/`experiment`/`pipeline` modules, outside this
excerpt, so they are a parameter. -/
def client_commands (clientNames : List String) : List String :=
  (clientNames.map (fun n => [n, n ++ "s"])).flatten

/-- Python `x in xs` for an `Optional[str]` against a collection of strings
(`None` is a member of no string collection). -/
def optMem (x : Option String) (xs : List String) : Bool :=
  match x with
  | none => false
  | some s => xs.contains s

/-- The `cli` group callback from `cli.py`: handles the completion options,
returns without a client for subcommands outside `client_commands` (or for
no subcommand), and otherwise stores the `Client` and the `namespace` and
`output` options in `ctx.obj` before the subcommand runs. -/
def cli (clientNames : List String) (show_completion : Option String)
    (install_completion : Option String) (endpoint : Option String)
    (iap_client_id : Option String) (ns : String)
    (other_client_id : Option String) (other_client_secret : Option String)
    (output : String) (invoked_subcommand : Option String) : CliResult :=
  if truthyStr show_completion then
    { obj_client := none, obj_namespace := none, obj_output := none,
      echoed := [_create_completion (show_completion.getD (""))] }
  else if truthyStr install_completion then
    { obj_client := none, obj_namespace := none, obj_output := none,
      echoed := [] }
  else if !(optMem invoked_subcommand (client_commands clientNames)) then
    { obj_client := none, obj_namespace := none, obj_output := none,
      echoed := [] }
  else
    { obj_client := some { endpoint := endpoint,
                           iap_client_id := iap_client_id, ns := ns,
                           other_client_id := other_client_id,
                           other_client_secret := other_client_secret },
      obj_namespace := some ns, obj_output := some output, echoed := [] }

/-- The `click` default of the `--namespace` option in `cli.py`. -/
def namespace_default : String := "kubeflow"

/-! ## Helper lemmas -/

/-- Folding `add_pipeline` over a registration sequence appends the
sequence to the accumulator. -/
theorem foldl_add_pipeline (regs : List PyFunc) (acc : List PyFunc) :
    regs.foldl (fun a f => (add_pipeline a f).1) acc = acc ++ regs := by
  induction regs generalizing acc with
  | nil => simp
  | cons f rest ih =>
    rw [List.foldl_cons, ih]
    simp [add_pipeline]

/-- The collected list equals the registration sequence. -/
theorem runRegistrations_eq (regs : List PyFunc) :
    runRegistrations regs = regs := by
  simp [runRegistrations, foldl_add_pipeline]

/-- A successful `_compile_pipeline_function` passes the given parameters,
package path and type-check flag through to `Compiler.compile`. -/
theorem compile_call_fields (pipeline_funcs : List PyFunc)
    (function_name : Option String) (pipeline_parameters : Params)
    (package_path : String) (type_check : Bool) (c : CompileCall)
    (h : _compile_pipeline_function pipeline_funcs function_name
        pipeline_parameters package_path type_check = Except.ok c) :
    c.pipeline_parameters = pipeline_parameters ∧
      c.package_path = package_path ∧ c.type_check = type_check := by
  unfold _compile_pipeline_function at h
  split at h
  · exact absurd h (by simp)
  · split at h
    · exact absurd h (by simp)
    · split at h
      · split at h
        · obtain rfl := Except.ok.inj h
          exact ⟨rfl, rfl, rfl⟩
        · exact absurd h (by simp)
      · obtain rfl := Except.ok.inj h
        exact ⟨rfl, rfl, rfl⟩

/-! ## Claim theorems -/

/-- Claim C1: when the imported file registers more than one pipeline
function and `--function` is not provided, `_compile_pipeline_function`
raises a `ValueError` listing the candidate function names and asking to
specify `--function`, and `Compiler.compile` is not called; likewise for
the whole `dsl_compile` run. -/
theorem C1_multiple_pipelines (funcs : List PyFunc) (params : Params)
    (package_path : String) (tc : Bool) (py output : String) (dtc : Bool)
    (jl : String → Except String Params) (s : Sys) (h : 1 < funcs.length) :
    _compile_pipeline_function funcs none params package_path tc =
      Except.error (PyExc.valueError
        ("There are multiple pipelines: " ++
          pyListRepr (funcs.map PyFunc.name) ++ ". Please specify --function.")) ∧
    (dsl_compile py output none none dtc (fun _ => ImportOutcome.ok funcs)
        jl s).1 =
      Except.error (PyExc.valueError
        ("There are multiple pipelines: " ++
          pyListRepr (funcs.map PyFunc.name) ++
          ". Please specify --function.")) := by
  cases funcs with
  | nil => simp at h
  | cons f0 t =>
    cases t with
    | nil => simp at h
    | cons f1 rest =>
      constructor
      · simp [_compile_pipeline_function, truthyStr]
      · simp [dsl_compile, runRegistrations_eq, _compile_pipeline_function,
          truthyStr]

/-- Witness for C1 at a concrete two-pipeline file. -/
theorem C1_multiple_pipelines_witness :
    _compile_pipeline_function [⟨0, "a"⟩, ⟨1, "b"⟩] none [] ("out") true =
      Except.error (PyExc.valueError
        ("There are multiple pipelines: " ++ pyListRepr (["a", "b"]) ++
          ". Please specify --function.")) :=
  (C1_multiple_pipelines [⟨0, "a"⟩, ⟨1, "b"⟩] [] ("out") true ("p.py") ("o")
    false (fun _ => Except.ok [])
    { path := [], handler := Handler.original 0, log := [] } (by decide)).1

/-- Claim C2: when the imported file registers zero pipeline functions,
`_compile_pipeline_function` raises the missing-pipeline-function
`ValueError`, and `Compiler.compile` is not called; likewise for the whole
`dsl_compile` run. -/
theorem C2_missing_pipeline_function (fn : Option String) (params : Params)
    (package_path : String) (tc : Bool) (py output : String) (dtc : Bool)
    (jl : String → Except String Params) (s : Sys) :
    _compile_pipeline_function [] fn params package_path tc =
      Except.error (PyExc.valueError
        ("A function with @dsl.pipeline decorator is required in the py file.")) ∧
    (dsl_compile py output fn none dtc (fun _ => ImportOutcome.ok []) jl s).1 =
      Except.error (PyExc.valueError
        ("A function with @dsl.pipeline decorator is required in the py file.")) :=
  ⟨rfl, rfl⟩

/-- Counterexample to claim C3: with the non-`None` function name `""` and
one discovered pipeline function named `"a"`, the claim demands a
`ValueError` (no discovered name equals `""`), but the code falls through
the falsy `if function_name:` check and compiles `pipeline_funcs[0]`. -/
theorem C3_function_name_counterexample :
    _compile_pipeline_function [⟨0, "a"⟩] (some ("")) [] ("out") true =
      Except.ok { pipeline_func := ⟨0, "a"⟩, pipeline_parameters := [],
                  package_path := "out", type_check := true } := rfl

/-- Claim C3 (amended): for a non-`None`, non-empty `function_name` and a
non-empty discovery list, the first discovered function whose `__name__`
equals `function_name` is passed to `Compiler.compile`, and if none
matches a does-not-exist `ValueError` is raised; when `function_name` is
`None` and exactly one function was discovered, that function is passed. -/
theorem C3_function_selection (funcs : List PyFunc) (fname : String)
    (params : Params) (package_path : String) (tc : Bool)
    (hne : funcs ≠ []) (hf : fname ≠ "") :
    (∀ pf, funcs.find? (fun x => x.name == fname) = some pf →
      _compile_pipeline_function funcs (some fname) params package_path tc =
        Except.ok { pipeline_func := pf, pipeline_parameters := params,
                    package_path := package_path, type_check := tc }) ∧
    (funcs.find? (fun x => x.name == fname) = none →
      _compile_pipeline_function funcs (some fname) params package_path tc =
        Except.error (PyExc.valueError
          ("The function \"" ++ fname ++
            "\" does not exist. Did you forget @dsl.pipeline decoration?"))) ∧
    (∀ f : PyFunc,
      _compile_pipeline_function [f] none params package_path tc =
        Except.ok { pipeline_func := f, pipeline_parameters := params,
                    package_path := package_path, type_check := tc }) := by
  have hie : fname.isEmpty = false := by
    cases hemp : fname.isEmpty
    · rfl
    · exact absurd ((String.isEmpty_iff _).mp hemp) hf
  have htru : truthyStr (some fname) = true := by
    simp [truthyStr, hie]
  cases funcs with
  | nil => exact absurd rfl hne
  | cons f0 rest =>
    refine ⟨?_, ?_, ?_⟩
    · intro pf hpf
      simp only [_compile_pipeline_function, htru, Option.getD_some,
        Bool.not_true, Bool.and_false, Bool.if_false_right] at *
      simp [hpf]
    · intro hpf
      simp only [_compile_pipeline_function, htru, Option.getD_some] at *
      simp [hpf]
    · intro f
      rfl

/-- Witness for C3 (amended) at a concrete two-pipeline file with
`--function b`. -/
theorem C3_function_selection_witness :
    _compile_pipeline_function [⟨0, "a"⟩, ⟨1, "b"⟩] (some ("b")) [] ("o")
        true =
      Except.ok { pipeline_func := ⟨1, "b"⟩, pipeline_parameters := [],
                  package_path := "o", type_check := true } :=
  (C3_function_selection [⟨0, "a"⟩, ⟨1, "b"⟩] ("b") [] ("o") true
    (by decide) (by decide)).1 ⟨1, "b"⟩ (by rfl)

/-- Claim C4: when `--pipeline-parameters` is provided and `json.loads`
fails on it, `dsl_compile` logs the failure message and propagates the
`JSONDecodeError`, and `Compiler.compile` is not called. -/
theorem C4_bad_json (py output : String) (fn : Option String) (pp : String)
    (dtc : Bool) (funcs : List PyFunc)
    (jl : String → Except String Params) (m : String) (s : Sys)
    (h : jl pp = Except.error m) :
    (dsl_compile py output fn (some pp) dtc
        (fun _ => ImportOutcome.ok funcs) jl s).1 =
      Except.error (PyExc.jsonDecodeError m) ∧
    ((dsl_compile py output fn (some pp) dtc
        (fun _ => ImportOutcome.ok funcs) jl s).2).log =
      s.log ++ ["Failed to parse --pipeline-parameters argument: " ++ pp] := by
  constructor <;> simp [dsl_compile, h]

/-- Witness for C4 at a concrete malformed parameter string. -/
theorem C4_bad_json_witness :
    (dsl_compile ("p.py") ("out") none (some ("nope")) false
        (fun _ => ImportOutcome.ok [])
        (fun _ => Except.error ("Expecting value"))
        { path := [], handler := Handler.original 0, log := [] }).1 =
      Except.error (PyExc.jsonDecodeError ("Expecting value")) :=
  (C4_bad_json ("p.py") ("out") none ("nope") false []
    (fun _ => Except.error ("Expecting value")) ("Expecting value")
    { path := [], handler := Handler.original 0, log := [] } rfl).1

/-- Claim C5: any exception raised out of `dsl_compile` is caught by
`main`, its `str(e)` is echoed to stderr and the process exits with code 1;
and `main` never exits with code 1 without echoing a message. -/
theorem C5_main_error_reporting (py output : String) (fn pp : Option String)
    (dtc : Bool) (importFn : String → ImportOutcome)
    (jl : String → Except String Params) (s : Sys) (e : PyExc)
    (h : (dsl_compile py output fn pp dtc importFn jl s).1 = Except.error e) :
    (compile_main py output fn pp dtc importFn jl s).1 =
      { exit_code := 1, stderr := [PyExc.str e] } ∧
    ∀ (py2 output2 : String) (fn2 pp2 : Option String) (dtc2 : Bool)
      (importFn2 : String → ImportOutcome)
      (jl2 : String → Except String Params) (s2 : Sys),
      ((compile_main py2 output2 fn2 pp2 dtc2 importFn2 jl2 s2).1).exit_code =
          1 →
      ((compile_main py2 output2 fn2 pp2 dtc2 importFn2 jl2 s2).1).stderr ≠
        [] := by
  constructor
  · simp [compile_main, h]
  · intro py2 output2 fn2 pp2 dtc2 importFn2 jl2 s2 hec
    cases hr : (dsl_compile py2 output2 fn2 pp2 dtc2 importFn2 jl2 s2).1 with
    | ok c => simp [compile_main, hr] at hec
    | error e2 => simp [compile_main, hr]

/-- Witness for C5 at a concrete file registering no pipeline. -/
theorem C5_main_error_reporting_witness :
    (compile_main ("p.py") ("out") none none false
        (fun _ => ImportOutcome.ok []) (fun _ => Except.ok [])
        { path := [], handler := Handler.original 0, log := [] }).1 =
      { exit_code := 1,
        stderr :=
          ["A function with @dsl.pipeline decorator is required in the py file."] } :=
  (C5_main_error_reporting ("p.py") ("out") none none false
    (fun _ => ImportOutcome.ok []) (fun _ => Except.ok [])
    { path := [], handler := Handler.original 0, log := [] }
    (PyExc.valueError
      ("A function with @dsl.pipeline decorator is required in the py file."))
    rfl).1

/-- Claim C6: `PipelineCollectorContext` installs the collector on
`__enter__` and `__exit__` restores the exact previous value of the
`pipeline_decorator_handler` slot, so every `dsl_compile` run — whether
the import returns or raises, and whatever happens afterwards — leaves the
handler slot as it found it. -/
theorem C6_handler_restored (py output : String) (fn pp : Option String)
    (dtc : Bool) (importFn : String → ImportOutcome)
    (jl : String → Except String Params) (s : Sys) :
    ((dsl_compile py output fn pp dtc importFn jl s).2).handler =
      s.handler := by
  simp only [dsl_compile]
  split
  · rfl
  · split
    · rfl
    · split
      · rfl
      · rfl

/-- Claim C7: the collector list contains exactly the registered functions
in registration order, and each registration returns the registered
function unchanged. -/
theorem C7_collector_order (regs : List PyFunc) :
    runRegistrations regs = regs ∧
    (∀ acc func, (add_pipeline acc func).2 = func) :=
  ⟨runRegistrations_eq regs, fun _ _ => rfl⟩

/-- Claim C9: with `--pipeline-parameters` omitted, the compiler is called
with the empty parameter dict (not `None`) and with `type_check` the
negation of `--disable-type-check`, whose `click` default is `False`, so
type checking is on by default. -/
theorem C9_default_parameters (py output : String) (fn : Option String)
    (dtc : Bool) (importFn : String → ImportOutcome)
    (jl : String → Except String Params) (s : Sys) (c : CompileCall)
    (h : (dsl_compile py output fn none dtc importFn jl s).1 =
      Except.ok c) :
    c.pipeline_parameters = [] ∧ c.type_check = !dtc ∧
      disable_type_check_default = false ∧
      (!disable_type_check_default) = true := by
  simp only [dsl_compile] at h
  split at h
  · simp at h
  · obtain ⟨h1, h2, h3⟩ := compile_call_fields _ _ _ _ _ _ h
    exact ⟨h1, h3, rfl, rfl⟩

/-- Witness for C9 at a concrete one-pipeline file. -/
theorem C9_default_parameters_witness :
    (dsl_compile ("p.py") ("out") none none false
        (fun _ => ImportOutcome.ok [⟨0, "a"⟩]) (fun _ => Except.ok [])
        { path := [], handler := Handler.original 0, log := [] }).1 =
      Except.ok { pipeline_func := ⟨0, "a"⟩, pipeline_parameters := [],
                  package_path := "out", type_check := true } ∧
    ({ pipeline_func := ⟨0, "a"⟩, pipeline_parameters := [],
       package_path := "out", type_check := true } :
        CompileCall).pipeline_parameters = [] ∧
      ({ pipeline_func := ⟨0, "a"⟩, pipeline_parameters := [],
         package_path := "out", type_check := true } :
          CompileCall).type_check = !false ∧
      disable_type_check_default = false ∧
      (!disable_type_check_default) = true :=
  ⟨rfl,
    C9_default_parameters ("p.py") ("out") none false
      (fun _ => ImportOutcome.ok [⟨0, "a"⟩]) (fun _ => Except.ok [])
      { path := [], handler := Handler.original 0, log := [] }
      { pipeline_func := ⟨0, "a"⟩, pipeline_parameters := [],
        package_path := "out", type_check := true } rfl⟩

/-- Claim C10: `dsl_compile` inserts `os.path.dirname(py)` at position 0 of
`sys.path` and the `finally` block deletes `sys.path[0]`, so on every run —
normal return or raise — `sys.path` afterwards equals `sys.path` before
(the model's import step never touches `sys.path`, matching the claim's
proviso). -/
theorem C10_sys_path_restored (py output : String) (fn pp : Option String)
    (dtc : Bool) (importFn : String → ImportOutcome)
    (jl : String → Except String Params) (s : Sys) :
    ((dsl_compile py output fn pp dtc importFn jl s).2).path = s.path := by
  simp only [dsl_compile]
  split
  · rfl
  · split
    · rfl
    · split
      · rfl
      · rfl

/-- Counterexample to claim C8: invoking the top-level `cli` command with
the `component` subcommand (one of the `no_client` commands) — concrete
endpoint and default namespace and output — creates and stores no `Client`
at all: the callback returns before the `Client(...)` construction. -/
theorem C8_no_client_counterexample :
    (cli (["run", "recurring-run", "experiment", "pipeline"]) none none
        (some ("http://endpoint")) none ("kubeflow") none none ("table")
        (some ("component"))).obj_client = none := rfl

/-- Claim C8 (amended): the `cli` callback instantiates a `Client` from the
given endpoint, IAP client id, namespace and other-client credentials, and
stores it (with the namespace and output format) in the context object
before the subcommand runs, exactly when neither completion option is given
and the invoked subcommand is a client command (or its plural alias);
otherwise no client is stored. -/
theorem C8_client_creation (clientNames : List String)
    (sc ic : Option String) (endpoint iap_client_id : Option String)
    (ns : String) (other_client_id other_client_secret : Option String)
    (output : String) (sub : Option String)
    (h1 : truthyStr sc = false) (h2 : truthyStr ic = false)
    (h3 : optMem sub (client_commands clientNames) = true) :
    (cli clientNames sc ic endpoint iap_client_id ns other_client_id
        other_client_secret output sub).obj_client =
      some { endpoint := endpoint, iap_client_id := iap_client_id, ns := ns,
             other_client_id := other_client_id,
             other_client_secret := other_client_secret } ∧
    (cli clientNames sc ic endpoint iap_client_id ns other_client_id
        other_client_secret output sub).obj_namespace = some ns ∧
    (cli clientNames sc ic endpoint iap_client_id ns other_client_id
        other_client_secret output sub).obj_output = some output ∧
    ∀ sub2 : Option String,
      optMem sub2 (client_commands clientNames) = false →
      (cli clientNames sc ic endpoint iap_client_id ns other_client_id
          other_client_secret output sub2).obj_client = none := by
  refine ⟨?_, ?_, ?_, ?_⟩
  · simp [cli, h1, h2, h3]
  · simp [cli, h1, h2, h3]
  · simp [cli, h1, h2, h3]
  · intro sub2 h4
    simp [cli, h1, h2, h4]

/-- Witness for C8 (amended) at a concrete `kfp run` invocation. -/
theorem C8_client_creation_witness :
    (cli (["run", "recurring-run", "experiment", "pipeline"]) none none
        (some ("http://endpoint")) none ("kubeflow") none none ("table")
        (some ("run"))).obj_client =
      some { endpoint := some ("http://endpoint"), iap_client_id := none,
             ns := "kubeflow", other_client_id := none,
             other_client_secret := none } :=
  (C8_client_creation (["run", "recurring-run", "experiment", "pipeline"])
    none none (some ("http://endpoint")) none ("kubeflow") none none
    ("table") (some ("run")) rfl rfl (by decide)).1
